import Mathlib

/-!
# Verification of `database_routing` (django-database-routing)

Shallow embedding of `database_routing/__init__.py`.

The Python module defines a class `PrimaryReplicaRouter` with class-level
state (`_lookup_cache`, `default_read`, `default_write`), a context manager
`ForcePrimaryRead`, a function decorator `force_primary_read` and a class
decorator `force_primary_read_method`.  We model the process-wide class
state as an explicit `RouterState` record threaded through the operations;
the Django `settings.PRIMARY_REPLICA_ROUTING` mapping is an association
list passed explicitly (so that hypothetical mutation of the mapping
between calls can be expressed); a Django model class is reduced to the
two metadata fields the router reads (`_meta.app_label`,
`_meta.model_name`).  Python callables that may raise are modelled as
state transformers returning `Except`.
-/

namespace DatabaseRouting

/-- A Python config dict `{'read': ..., 'write': ...}`; a missing key is
`none` (the code only ever calls `.get('read', d)` / `.get('write', d)`). -/
structure RouteConfig where
  read : Option String
  write : Option String
deriving DecidableEq, Repr

/-- The `result = {}` branch of `get_db_config`. -/
def emptyConfig : RouteConfig := ⟨none, none⟩

/-- The part of a Django model class the router reads: `_meta.app_label`
and `_meta.model_name`. -/
structure Model where
  app_label : String
  model_name : String
deriving DecidableEq, Repr

/-- The `PRIMARY_REPLICA_ROUTING` setting: a mapping from label strings to
config dicts, as an association list. -/
def Settings := List (String × RouteConfig)

/-- Python `key in mapping` / `mapping[key]` combined: first binding of a
key in an association list. -/
def lookupKey (l : List (String × RouteConfig)) (k : String) : Option RouteConfig :=
  (l.find? (fun p => p.1 == k)).map (fun p => p.2)

/-- The class-level (process-wide) mutable state of `PrimaryReplicaRouter`:
`_lookup_cache`, `default_read`, `default_write`. -/
structure RouterState where
  lookup_cache : List (String × RouteConfig)
  default_read : String
  default_write : String
deriving DecidableEq, Repr

/-- The initial class attributes: `default_read = 'replica'`,
`default_write = 'default'`, empty `_lookup_cache`. -/
def initialState : RouterState := ⟨[], "replica", "default"⟩

/-- `model_label = '%s.%s' % (app_label, model_name)`. -/
def model_label (m : Model) : String := m.app_label ++ "." ++ m.model_name

/-- `PrimaryReplicaRouter.get_db_config`: on a cache miss, look up the
exact label in the setting, then the app label, else `{}`, and store the
result in `_lookup_cache`; return the cached entry. -/
def get_db_config (conf : Settings) (st : RouterState) (m : Model) :
    RouteConfig × RouterState :=
  let label := model_label m
  match lookupKey st.lookup_cache label with
  | some r => (r, st)
  | none =>
      let result :=
        match lookupKey conf label with
        | some r => r
        | none =>
            match lookupKey conf m.app_label with
            | some r => r
            | none => emptyConfig
      (result, { st with lookup_cache := (label, result) :: st.lookup_cache })

/-- `PrimaryReplicaRouter.db_for_read`:
`db_config.get('read', self.default_read)`. -/
def db_for_read (conf : Settings) (st : RouterState) (m : Model) :
    String × RouterState :=
  let p := get_db_config conf st m
  (p.1.read.getD st.default_read, p.2)

/-- `PrimaryReplicaRouter.db_for_write`:
`db_config.get('write', self.default_write)`. -/
def db_for_write (conf : Settings) (st : RouterState) (m : Model) :
    String × RouterState :=
  let p := get_db_config conf st m
  (p.1.write.getD st.default_write, p.2)

/-- `PrimaryReplicaRouter.allow_syncdb`: `db == self.db_for_write(model)`. -/
def allow_syncdb (conf : Settings) (st : RouterState) (db : String) (m : Model) :
    Bool × RouterState :=
  let p := db_for_write conf st m
  (db == p.1, p.2)

/-- `PrimaryReplicaRouter.allow_relation`: compare the write databases of
the two objects, in evaluation order. -/
def allow_relation (conf : Settings) (st : RouterState) (o1 o2 : Model) :
    Bool × RouterState :=
  let p1 := db_for_write conf st o1
  let p2 := db_for_write conf p1.2 o2
  (p1.1 == p2.1, p2.2)

/-- The `ForcePrimaryRead` context-manager object after `__enter__`: its
only field is `self._prev_read`. -/
structure ForcePrimaryRead where
  prev_read : String
deriving DecidableEq, Repr

/-- `ForcePrimaryRead.__enter__`: capture `default_read` into
`_prev_read`, then set `default_read := default_write`. -/
def ForcePrimaryRead.enter (st : RouterState) : ForcePrimaryRead × RouterState :=
  (⟨st.default_read⟩, { st with default_read := st.default_write })

/-- `ForcePrimaryRead.__exit__`: restore `default_read` from `_prev_read`,
unconditionally (the exc_type/exc_val/exc_tb arguments are ignored). -/
def ForcePrimaryRead.exitScope (cm : ForcePrimaryRead) (st : RouterState) :
    RouterState :=
  { st with default_read := cm.prev_read }

/-- A Python callable that may read and mutate the router state and may
raise: the body handed to `force_primary_read`. -/
def Func (ε α : Type) : Type := RouterState → Except ε α × RouterState

/-- The `force_primary_read` decorator: run the callable inside
`with ForcePrimaryRead():` — `__enter__`, run the body, `__exit__` on both
the normal and the exceptional path, return the body's outcome. -/
def force_primary_read {ε α : Type} (func : Func ε α) : Func ε α :=
  fun st =>
    let p := ForcePrimaryRead.enter st
    let q := func p.2
    (q.1, p.1.exitScope q.2)

/-- A Python class viewed as its attribute dictionary: method names to
callables (the only part `force_primary_read_method` touches). -/
def Cls (ε α : Type) : Type := List (String × Func ε α)

/-- `getattr(cls, m)` / `hasattr(cls, m)`: first binding of the name. -/
def lookupAttr {ε α : Type} (cls : Cls ε α) (n : String) : Option (Func ε α) :=
  (cls.find? (fun p => p.1 == n)).map (fun p => p.2)

/-- `setattr(cls, m, f)` for a name the class has: rebind the name. -/
def setAttr {ε α : Type} (cls : Cls ε α) (n : String) (f : Func ε α) : Cls ε α :=
  cls.map (fun p => if p.1 == n then (n, f) else p)

/-- One iteration of the `for m in methods` loop of
`force_primary_read_method`: `if hasattr(cls, m): setattr(cls, m,
force_primary_read(getattr(cls, m)))`. -/
def fprmStep {ε α : Type} (c : Cls ε α) (mname : String) : Cls ε α :=
  match lookupAttr c mname with
  | some f => setAttr c mname (force_primary_read f)
  | none => c

/-- `force_primary_read_method(methods)`: for each listed name, if the
class has it, replace it by its `force_primary_read`-wrapped version;
names the class lacks are skipped. -/
def force_primary_read_method {ε α : Type} (methods : List String)
    (cls : Cls ε α) : Cls ε α :=
  methods.foldl fprmStep cls

/-! Concrete fixtures used by witnesses and counterexamples, mirroring the
E2E scenario of the spec (`app.tag` configured, `app.project` not). -/

/-- An unconfigured model type. -/
def mProject : Model := ⟨"app", "project"⟩

/-- A model type configured in `confTag`. -/
def mTag : Model := ⟨"app", "tag"⟩

/-- A one-entry `PRIMARY_REPLICA_ROUTING` setting for `app.tag`. -/
def confTag : Settings :=
  [("app.tag", ⟨some "tag_replica", some "tag_primary"⟩)]

/-- A callable that raises (models a scope body exiting by error). -/
def funcBoom : Func String Nat := fun st => (Except.error "boom", st)

/-- A callable that returns normally. -/
def funcOk : Func String Nat := fun st => (Except.ok 7, st)

/-- A class with one method `do_update`, for the class-decorator claims. -/
def cls0 : Cls String Nat := [("do_update", funcOk)]

/-! Shared lemmas about `get_db_config` and the cache. -/

theorem lookupKey_cons_ne (l : List (String × RouteConfig)) (k k' : String)
    (r : RouteConfig) (h : k' ≠ k) :
    lookupKey ((k, r) :: l) k' = lookupKey l k' := by
  have hkk : (k == k') = false := by
    cases hb : k == k' with
    | false => rfl
    | true => exact absurd (eq_of_beq hb).symm h
  simp [lookupKey, List.find?, hkk]

theorem get_db_config_cache_hit (conf : Settings) (st : RouterState) (m : Model)
    (r : RouteConfig) (h : lookupKey st.lookup_cache (model_label m) = some r) :
    get_db_config conf st m = (r, st) := by
  simp [get_db_config, h]

theorem get_db_config_cached (conf : Settings) (st : RouterState) (m : Model) :
    lookupKey (get_db_config conf st m).2.lookup_cache (model_label m) =
      some (get_db_config conf st m).1 := by
  cases h : lookupKey st.lookup_cache (model_label m) with
  | some r => simp [get_db_config, h]
  | none =>
      simp only [get_db_config, h]
      simp [lookupKey, List.find?]

theorem get_db_config_idem (conf' conf : Settings) (st : RouterState) (m : Model) :
    get_db_config conf' (get_db_config conf st m).2 m =
      ((get_db_config conf st m).1, (get_db_config conf st m).2) :=
  get_db_config_cache_hit conf' _ m _ (get_db_config_cached conf st m)

theorem get_db_config_default_read (conf : Settings) (st : RouterState) (m : Model) :
    (get_db_config conf st m).2.default_read = st.default_read := by
  cases h : lookupKey st.lookup_cache (model_label m) <;> simp [get_db_config, h]

theorem get_db_config_default_write (conf : Settings) (st : RouterState) (m : Model) :
    (get_db_config conf st m).2.default_write = st.default_write := by
  cases h : lookupKey st.lookup_cache (model_label m) <;> simp [get_db_config, h]

theorem get_db_config_other (conf : Settings) (st : RouterState) (o1 o2 : Model)
    (h : model_label o2 ≠ model_label o1) :
    (get_db_config conf (get_db_config conf st o1).2 o2).1 =
      (get_db_config conf st o2).1 := by
  cases hc : lookupKey st.lookup_cache (model_label o1) with
  | some r => simp [get_db_config, hc]
  | none =>
      cases h2 : lookupKey st.lookup_cache (model_label o2) with
      | some r2 => simp [get_db_config, hc, h2, lookupKey_cons_ne _ _ _ _ h]
      | none => simp [get_db_config, hc, h2, lookupKey_cons_ne _ _ _ _ h]

theorem db_for_write_after_ne (conf : Settings) (st : RouterState) (o1 o2 : Model)
    (h : model_label o2 ≠ model_label o1) :
    (db_for_write conf (db_for_write conf st o1).2 o2).1 =
      (db_for_write conf st o2).1 := by
  simp only [db_for_write]
  rw [get_db_config_other conf st o1 o2 h, get_db_config_default_write]

theorem db_for_write_after_same (conf : Settings) (st : RouterState) (m : Model) :
    (db_for_write conf (db_for_write conf st m).2 m).1 =
      (db_for_write conf st m).1 := by
  simp only [db_for_write]
  rw [get_db_config_idem, get_db_config_default_write]

/-! Claim theorems. -/

/-- Claim C1: `ForcePrimaryRead.__enter__` captures the current
`default_read` and sets `default_read := default_write`, so inside the
scope `db_for_read` of an entity whose resolved config has no read
endpoint equals the pre-scope write default; `__exit__` restores
`default_read` to the captured value unconditionally (it ignores the
exception arguments), and the `force_primary_read` wrapper gives the same
guarantee around the whole call of the wrapped callable, returning the
body's outcome — its result on the normal path, its exception on the error
path. -/
theorem forcePrimaryRead_scope_correct {ε α : Type} (conf : Settings)
    (st : RouterState) (m : Model) (func : Func ε α)
    (hm : ((get_db_config conf (ForcePrimaryRead.enter st).2 m).1).read = none) :
    (ForcePrimaryRead.enter st).1.prev_read = st.default_read
    ∧ (db_for_read conf (ForcePrimaryRead.enter st).2 m).1 = st.default_write
    ∧ (∀ cm : ForcePrimaryRead, ∀ st' : RouterState,
        (cm.exitScope st').default_read = cm.prev_read)
    ∧ (force_primary_read func st).2.default_read = st.default_read
    ∧ (force_primary_read func st).1 = (func (ForcePrimaryRead.enter st).2).1 := by
  refine ⟨rfl, ?_, fun cm st' => rfl, rfl, rfl⟩
  simp only [db_for_read]
  rw [hm]
  rfl

/-- Witness for C1 at the spec's E2E fixture: an unconfigured model read
inside the scope goes to the write default, and a body that raises still
gets the default restored and its error propagated. -/
theorem forcePrimaryRead_scope_correct_witness :
    (ForcePrimaryRead.enter initialState).1.prev_read = initialState.default_read
    ∧ (db_for_read confTag (ForcePrimaryRead.enter initialState).2 mProject).1 =
        initialState.default_write
    ∧ (∀ cm : ForcePrimaryRead, ∀ st' : RouterState,
        (cm.exitScope st').default_read = cm.prev_read)
    ∧ (force_primary_read funcBoom initialState).2.default_read =
        initialState.default_read
    ∧ (force_primary_read funcBoom initialState).1 =
        (funcBoom (ForcePrimaryRead.enter initialState).2).1 :=
  forcePrimaryRead_scope_correct confTag initialState mProject funcBoom (by decide)

/-- Claim C2: `allow_relation` is true iff the two write endpoints agree
(read endpoints play no role), and it is symmetric.  The hypothesis states
that equal `app_label.model_name` labels only arise from the same model
type, which Django guarantees (labels are the identity of a model class;
neither component contains a dot). -/
theorem allow_relation_iff_and_symm (conf : Settings) (st : RouterState)
    (A B : Model) (hinj : model_label A = model_label B → A = B) :
    ((allow_relation conf st A B).1 = true ↔
      (db_for_write conf st A).1 = (db_for_write conf st B).1)
    ∧ (allow_relation conf st A B).1 = (allow_relation conf st B A).1 := by
  by_cases hl : model_label A = model_label B
  · cases hinj hl
    constructor
    · simp [allow_relation, db_for_write_after_same]
    · rfl
  · have hBA : model_label B ≠ model_label A := fun hx => hl hx.symm
    have h1 := db_for_write_after_ne conf st A B hBA
    have h2 := db_for_write_after_ne conf st B A hl
    constructor
    · simp only [allow_relation, h1, beq_iff_eq]
    · simp only [allow_relation, h1, h2]
      simp only [beq_eq_beq]
      exact eq_comm

/-- Witness for C2 on the E2E fixture: the configured `app.tag` writes to
`tag_primary`, the unconfigured `app.project` to `default`, so the
relation is refused, symmetrically. -/
theorem allow_relation_iff_and_symm_witness :
    ((allow_relation confTag initialState mTag mProject).1 = true ↔
      (db_for_write confTag initialState mTag).1 =
        (db_for_write confTag initialState mProject).1)
    ∧ (allow_relation confTag initialState mTag mProject).1 =
        (allow_relation confTag initialState mProject mTag).1 :=
  allow_relation_iff_and_symm confTag initialState mTag mProject (by decide)

/-- Claim C5: on a cache miss, `get_db_config` consults the exact
`app_label.model_name` key first, then the `app_label` key, and returns
the empty config when both are absent; absence is never an error (the
function is total, returning a `RouteConfig` in every case). -/
theorem get_db_config_lookup_order (conf : Settings) (st : RouterState)
    (m : Model) (hc : lookupKey st.lookup_cache (model_label m) = none) :
    (∀ r, lookupKey conf (model_label m) = some r →
      (get_db_config conf st m).1 = r)
    ∧ (lookupKey conf (model_label m) = none →
        ∀ r, lookupKey conf m.app_label = some r →
          (get_db_config conf st m).1 = r)
    ∧ (lookupKey conf (model_label m) = none →
        lookupKey conf m.app_label = none →
          (get_db_config conf st m).1 = emptyConfig) := by
  refine ⟨fun r hr => ?_, fun he r hr => ?_, fun he ha => ?_⟩
  · simp only [get_db_config, hc, hr]
  · simp only [get_db_config, hc, he, hr]
  · simp only [get_db_config, hc, he, ha]

/-- Witness for C5: the exact key wins for `app.tag`, and with the empty
mapping the unconfigured `app.project` resolves to the empty config. -/
theorem get_db_config_lookup_order_witness :
    (get_db_config confTag initialState mTag).1 =
      (⟨some "tag_replica", some "tag_primary"⟩ : RouteConfig)
    ∧ (get_db_config [] initialState mProject).1 = emptyConfig :=
  ⟨(get_db_config_lookup_order confTag initialState mTag (by decide)).1
      _ (by decide),
   (get_db_config_lookup_order [] initialState mProject (by decide)).2.2
      (by decide) (by decide)⟩

/-- Claim C6: with no configuration entry at the exact or the namespace
key and the initial class attributes in force (no override scope active),
`db_for_read` returns the default replica endpoint `'replica'` and
`db_for_write` returns the default primary endpoint `'default'`. -/
theorem default_routing (conf : Settings) (m : Model)
    (h1 : lookupKey conf (model_label m) = none)
    (h2 : lookupKey conf m.app_label = none) :
    (db_for_read conf initialState m).1 = "replica"
    ∧ (db_for_write conf initialState m).1 = "default" := by
  have hc : lookupKey initialState.lookup_cache (model_label m) = none := rfl
  constructor
  · simp only [db_for_read, get_db_config, hc, h1, h2]
    rfl
  · simp only [db_for_write, get_db_config, hc, h1, h2]
    rfl

/-- Witness for C6: `app.project` has no entry in `confTag`. -/
theorem default_routing_witness :
    (db_for_read confTag initialState mProject).1 = "replica"
    ∧ (db_for_write confTag initialState mProject).1 = "default" :=
  default_routing confTag mProject (by decide) (by decide)

/-- Claim C7: once `get_db_config` has computed a result for a model's
exact label, every later resolution of the same model returns the
identical result and leaves the state unchanged, even when the static
mapping has been replaced by an arbitrary `conf'` in between — the
namespace fallback is never re-evaluated for a cached key. -/
theorem resolution_sticky (conf conf' : Settings) (st : RouterState) (m : Model) :
    get_db_config conf' (get_db_config conf st m).2 m =
      ((get_db_config conf st m).1, (get_db_config conf st m).2) :=
  get_db_config_idem conf' conf st m

/-- Claim C9: `allow_syncdb` answers true exactly when the queried db name
is the model's write endpoint; in particular it answers false for the
model's read endpoint whenever the read endpoint differs from the write
endpoint. -/
theorem allow_syncdb_iff (conf : Settings) (st : RouterState) (db : String)
    (m : Model) :
    ((allow_syncdb conf st db m).1 = true ↔ db = (db_for_write conf st m).1)
    ∧ ((db_for_read conf st m).1 ≠ (db_for_write conf st m).1 →
        (allow_syncdb conf st (db_for_read conf st m).1 m).1 = false) := by
  constructor
  · simp [allow_syncdb]
  · intro h
    simp only [allow_syncdb]
    exact beq_eq_false_iff_ne.mpr h

/-- Witness for C9: `app.tag` reads from `tag_replica` and writes to
`tag_primary`, so schema creation on its read endpoint is refused. -/
theorem allow_syncdb_iff_witness :
    (allow_syncdb confTag initialState
        (db_for_read confTag initialState mTag).1 mTag).1 = false :=
  (allow_syncdb_iff confTag initialState "unused" mTag).2 (by decide)

/-- Test harness for nesting: enter `n` scopes in sequence, collecting the
context-manager objects outermost first. -/
def enterN : Nat → RouterState → List ForcePrimaryRead × RouterState
  | 0, st => ([], st)
  | n + 1, st =>
      let p := ForcePrimaryRead.enter st
      let q := enterN n p.2
      (p.1 :: q.1, q.2)

/-- Test harness for nesting: exit a list of scopes innermost first (the
reverse of the entry order of `enterN`). -/
def exitAll : List ForcePrimaryRead → RouterState → RouterState
  | [], st => st
  | cm :: cms, st => cm.exitScope (exitAll cms st)

/-- Claim C8: with two nested scopes exited in reverse order, the inner
exit restores the outer scope's override value (the pre-scope
`default_write`, which is the value current at the inner entry) and the
outer exit restores the original `default_read`; and at any positive
nesting depth, exiting all scopes in reverse order — from any intermediate
state whatsoever — restores the original `default_read`, because each
entry captured the value current at that moment. -/
theorem nested_scopes_restore (st : RouterState) (n : Nat) (hn : 0 < n)
    (stMid : RouterState) :
    ((ForcePrimaryRead.enter (ForcePrimaryRead.enter st).2).1.exitScope
        (ForcePrimaryRead.enter (ForcePrimaryRead.enter st).2).2).default_read
      = (ForcePrimaryRead.enter st).2.default_read
    ∧ ((ForcePrimaryRead.enter (ForcePrimaryRead.enter st).2).1.exitScope
        (ForcePrimaryRead.enter (ForcePrimaryRead.enter st).2).2).default_read
      = st.default_write
    ∧ ((ForcePrimaryRead.enter st).1.exitScope
        ((ForcePrimaryRead.enter (ForcePrimaryRead.enter st).2).1.exitScope
          (ForcePrimaryRead.enter (ForcePrimaryRead.enter st).2).2)).default_read
      = st.default_read
    ∧ (exitAll (enterN n st).1 stMid).default_read = st.default_read := by
  refine ⟨rfl, rfl, rfl, ?_⟩
  cases n with
  | zero => exact absurd hn (by decide)
  | succ k =>
      simp [enterN, exitAll, ForcePrimaryRead.enter, ForcePrimaryRead.exitScope]

/-- Witness for C8 at depth 3 from the initial state. -/
theorem nested_scopes_restore_witness :
    (exitAll (enterN 3 initialState).1 initialState).default_read =
      initialState.default_read :=
  (nested_scopes_restore initialState 3 (by decide) initialState).2.2.2

/-- Counterexample to claim C3 as stated: the cache stores the raw
(unmerged) `RouteConfig`, and `db_for_read` consults the *current*
`default_read` on every call, so for an already-resolved entity the read
endpoint does change when the router defaults are later mutated — that is
exactly how `ForcePrimaryRead` takes effect on cached entities. -/
theorem cached_config_not_merged_cex :
    (db_for_read [] initialState mProject).1 = "replica"
    ∧ (get_db_config [] initialState mProject).2.lookup_cache =
        [("app.project", emptyConfig)]
    ∧ (db_for_read []
        (ForcePrimaryRead.enter (db_for_read [] initialState mProject).2).2
        mProject).1 = "default"
    ∧ ("replica" : String) ≠ "default" := by
  refine ⟨rfl, rfl, rfl, by decide⟩

/-- Claim C3 as amended: the memoized value for an exact key is the raw
`RouteConfig` of the lookup (not merged with defaults) and is returned for
the process lifetime regardless of later changes to the static mapping;
but `db_for_read`/`db_for_write` apply the router defaults current at each
call, so a cached entity with no configured read/write endpoint tracks
later mutation of the defaults. -/
theorem cached_config_raw_and_defaults_live (conf conf' : Settings)
    (st : RouterState) (m : Model) (d w : String) :
    lookupKey (get_db_config conf st m).2.lookup_cache (model_label m) =
      some (get_db_config conf st m).1
    ∧ (db_for_read conf'
        { (get_db_config conf st m).2 with default_read := d } m).1 =
        ((get_db_config conf st m).1).read.getD d
    ∧ (db_for_write conf'
        { (get_db_config conf st m).2 with default_write := w } m).1 =
        ((get_db_config conf st m).1).write.getD w := by
  have hcached := get_db_config_cached conf st m
  refine ⟨hcached, ?_, ?_⟩
  · simp only [db_for_read]
    rw [get_db_config_cache_hit conf'
      { (get_db_config conf st m).2 with default_read := d } m _ hcached]
  · simp only [db_for_write]
    rw [get_db_config_cache_hit conf'
      { (get_db_config conf st m).2 with default_write := w } m _ hcached]

/-- Counterexample to claim C4 as stated: inside an override scope, an
entity with a configured read endpoint still reads from it — `db_for_read`
of `app.tag` stays `tag_replica`, which is not its write endpoint
`tag_primary`, so not every entity's reads are forced to the primary. -/
theorem override_scope_not_universal_cex :
    (db_for_read confTag (ForcePrimaryRead.enter initialState).2 mTag).1 =
      "tag_replica"
    ∧ (db_for_write confTag (ForcePrimaryRead.enter initialState).2 mTag).1 =
      "tag_primary"
    ∧ ("tag_replica" : String) ≠ "tag_primary" := by
  refine ⟨rfl, rfl, by decide⟩

/-- Claim C4 as amended: while a scope is active (the state is the single
process-wide class state, consulted by every router instance), every
entity whose resolved config has no read endpoint reads from the write
default captured at entry; an entity with a configured read endpoint keeps
reading from it. -/
theorem override_scope_reads (conf : Settings) (st : RouterState) (m : Model) :
    (((get_db_config conf (ForcePrimaryRead.enter st).2 m).1).read = none →
      (db_for_read conf (ForcePrimaryRead.enter st).2 m).1 = st.default_write)
    ∧ (∀ r, ((get_db_config conf (ForcePrimaryRead.enter st).2 m).1).read = some r →
        (db_for_read conf (ForcePrimaryRead.enter st).2 m).1 = r) := by
  constructor
  · intro h
    simp only [db_for_read]
    rw [h]
    rfl
  · intro r h
    simp only [db_for_read]
    rw [h]
    rfl

/-- Witness for amended C4: inside a scope the unconfigured `app.project`
reads from the pre-scope write default, and `app.tag` still reads from its
configured `tag_replica`. -/
theorem override_scope_reads_witness :
    (db_for_read confTag (ForcePrimaryRead.enter initialState).2 mProject).1 =
      initialState.default_write
    ∧ (db_for_read confTag (ForcePrimaryRead.enter initialState).2 mTag).1 =
      "tag_replica" :=
  ⟨(override_scope_reads confTag initialState mProject).1 (by decide),
   (override_scope_reads confTag initialState mTag).2 "tag_replica" (by decide)⟩

/-! Shared lemmas about attribute update for the class decorator. -/

theorem lookupAttr_setAttr_self {ε α : Type} (cls : Cls ε α) (n : String)
    (f g : Func ε α) (h : lookupAttr cls n = some g) :
    lookupAttr (setAttr cls n f) n = some f := by
  induction cls with
  | nil => simp [lookupAttr] at h
  | cons hd tl ih =>
      by_cases hb : hd.1 = n
      · simp [lookupAttr, setAttr, List.find?, hb]
      · have hb' : (hd.1 == n) = false := by simp [hb]
        have h' : lookupAttr tl n = some g := by
          simpa [lookupAttr, List.find?, hb'] using h
        simpa [lookupAttr, setAttr, List.find?, hb'] using ih h'

theorem lookupAttr_setAttr_ne {ε α : Type} (cls : Cls ε α) (n n' : String)
    (f : Func ε α) (h : n' ≠ n) :
    lookupAttr (setAttr cls n f) n' = lookupAttr cls n' := by
  induction cls with
  | nil => rfl
  | cons hd tl ih =>
      have hnn : (n == n') = false := by
        simp only [beq_eq_false_iff_ne]
        exact fun hx => h hx.symm
      by_cases hb : hd.1 = n
      · have hdn : (hd.1 == n') = false := by
          simp only [beq_eq_false_iff_ne]
          exact fun hy => h (hy.symm.trans hb)
        simpa [lookupAttr, setAttr, List.find?, hb, hnn, hdn] using ih
      · have hb' : (hd.1 == n) = false := by simp [hb]
        by_cases hx : hd.1 = n'
        · have hx' : (hd.1 == n') = true := by simp [hx]
          simp [lookupAttr, setAttr, List.find?, hb', hx']
        · have hx' : (hd.1 == n') = false := by simp [hx]
          simpa [lookupAttr, setAttr, List.find?, hb', hx'] using ih

theorem lookupAttr_fprmStep_ne {ε α : Type} (c : Cls ε α) (mh name : String)
    (h : name ≠ mh) : lookupAttr (fprmStep c mh) name = lookupAttr c name := by
  unfold fprmStep
  cases hc : lookupAttr c mh with
  | none => rfl
  | some f => exact lookupAttr_setAttr_ne c mh name (force_primary_read f) h

theorem fprm_not_mem {ε α : Type} (methods : List String) (cls : Cls ε α)
    (name : String) (h : name ∉ methods) :
    lookupAttr (force_primary_read_method methods cls) name = lookupAttr cls name := by
  induction methods generalizing cls with
  | nil => rfl
  | cons mh mt ih =>
      have hne : name ≠ mh := fun hx => h (hx ▸ List.mem_cons_self mh mt)
      have hnt : name ∉ mt := fun hx => h (List.mem_cons_of_mem mh hx)
      calc lookupAttr (force_primary_read_method (mh :: mt) cls) name
          = lookupAttr (force_primary_read_method mt (fprmStep cls mh)) name := rfl
        _ = lookupAttr (fprmStep cls mh) name := ih (fprmStep cls mh) hnt
        _ = lookupAttr cls name := lookupAttr_fprmStep_ne cls mh name hne

theorem fprm_absent {ε α : Type} (methods : List String) (cls : Cls ε α)
    (name : String) (h : lookupAttr cls name = none) :
    lookupAttr (force_primary_read_method methods cls) name = none := by
  induction methods generalizing cls with
  | nil => exact h
  | cons mh mt ih =>
      refine ih (fprmStep cls mh) ?_
      by_cases hne : name = mh
      · subst hne
        unfold fprmStep
        rw [h]
        exact h
      · rw [lookupAttr_fprmStep_ne cls mh name hne]
        exact h

theorem fprm_mem {ε α : Type} (methods : List String) (cls : Cls ε α)
    (name : String) (f : Func ε α) (hnd : methods.Nodup) (hm : name ∈ methods)
    (hf : lookupAttr cls name = some f) :
    lookupAttr (force_primary_read_method methods cls) name =
      some (force_primary_read f) := by
  induction methods generalizing cls with
  | nil => cases hm
  | cons mh mt ih =>
      have hnd' := List.nodup_cons.mp hnd
      cases List.mem_cons.mp hm with
      | inl heq =>
          subst heq
          have hstep : lookupAttr (fprmStep cls name) name =
              some (force_primary_read f) := by
            unfold fprmStep
            rw [hf]
            exact lookupAttr_setAttr_self cls name (force_primary_read f) f hf
          calc lookupAttr (force_primary_read_method (name :: mt) cls) name
              = lookupAttr (force_primary_read_method mt (fprmStep cls name)) name :=
                rfl
            _ = lookupAttr (fprmStep cls name) name :=
                fprm_not_mem mt (fprmStep cls name) name hnd'.1
            _ = some (force_primary_read f) := hstep
      | inr hmt =>
          have hne : name ≠ mh := fun hx => hnd'.1 (hx ▸ hmt)
          have hstep : lookupAttr (fprmStep cls mh) name = some f := by
            rw [lookupAttr_fprmStep_ne cls mh name hne]
            exact hf
          exact ih (fprmStep cls mh) hnd'.2 hmt hstep

/-- Claim C10: `force_primary_read_method(methods)` (with the listed names
pairwise distinct, as in its intended use) modifies exactly the listed
names the class possesses, replacing each independently by its
`force_primary_read`-wrapped version; an unlisted name is left bound as it
was, and a listed name the class lacks is skipped silently — the decorated
class is returned without error and still lacks it. -/
theorem force_primary_read_method_correct {ε α : Type} (methods : List String)
    (cls : Cls ε α) (name : String) (hnd : methods.Nodup) :
    (name ∉ methods →
      lookupAttr (force_primary_read_method methods cls) name = lookupAttr cls name)
    ∧ (∀ f, name ∈ methods → lookupAttr cls name = some f →
        lookupAttr (force_primary_read_method methods cls) name =
          some (force_primary_read f))
    ∧ (lookupAttr cls name = none →
        lookupAttr (force_primary_read_method methods cls) name = none) :=
  ⟨fun h => fprm_not_mem methods cls name h,
   fun f hm hf => fprm_mem methods cls name f hnd hm hf,
   fun h => fprm_absent methods cls name h⟩

/-- Witness for C10 on a one-method class: the listed existing method gets
wrapped, an unlisted name keeps its binding, and a listed missing name
stays absent. -/
theorem force_primary_read_method_correct_witness :
    lookupAttr (force_primary_read_method ["do_update", "missing"] cls0)
        "do_update" = some (force_primary_read funcOk)
    ∧ lookupAttr (force_primary_read_method ["missing"] cls0) "do_update" =
        lookupAttr cls0 "do_update"
    ∧ lookupAttr (force_primary_read_method ["do_update", "missing"] cls0)
        "missing" = none :=
  ⟨(force_primary_read_method_correct ["do_update", "missing"] cls0 "do_update"
      (by decide)).2.1 funcOk (by decide) rfl,
   (force_primary_read_method_correct ["missing"] cls0 "do_update"
      (by decide)).1 (by decide),
   (force_primary_read_method_correct ["do_update", "missing"] cls0 "missing"
      (by decide)).2.2 rfl⟩

end DatabaseRouting
